import Mathlib

/-!
Verification development for the audio-bridge core (`crates/core/src/pipeline.rs`).

The Rust source is shallowly embedded: pure fragments become Lean functions;
the GStreamer engine (element factories, property support, linking, the device
monitor) is abstracted as an explicit `Engine` record of booleans the code
queries, and environment variables as a partial map `Env`. Machine integers
are modelled as `Nat`/`Int` (no arithmetic in the embedded fragments can
overflow: all values are small constants or parsed with the source's bounds
checks).
-/

namespace AudioBridge

/- ------------------------------------------------------------------ -/
/- String helpers: Rust `str::contains` (substring test) and lowering -/
/- ------------------------------------------------------------------ -/

/-- Does the pattern match at the head of the character list? -/
def matchesAt : List Char → List Char → Bool
  | [], _ => true
  | _ :: _, [] => false
  | p :: ps, c :: cs => p == c && matchesAt ps cs

/-- Does the pattern occur as a contiguous sublist anywhere? -/
def occursIn (pat : List Char) : List Char → Bool
  | [] => matchesAt pat []
  | c :: cs => matchesAt pat (c :: cs) || occursIn pat cs

/-- Rust `str::contains(pat)`: substring containment test. -/
def strContains (s pat : String) : Bool :=
  occursIn pat.toList s.toList

/-- Rust `str::to_lowercase` restricted to its ASCII action (the only
case the heuristic's "monitor" token and hints rely on), defined by
structural recursion so that concrete instances evaluate. -/
def lowerStr (s : String) : String :=
  String.mk (s.data.map Char.toLower)

/- ------------------------------------------------------------------ -/
/- Rust integer parsing (`str::parse` for u64 / u32 / i32)            -/
/- ------------------------------------------------------------------ -/

/-- Value of a non-empty all-digit character list; `none` otherwise.
Mirrors the digit-sequence part of Rust's `FromStr` grammar for integers. -/
def digitsToNat (cs : List Char) : Option Nat :=
  match cs with
  | [] => none
  | _ =>
    if cs.all Char.isDigit then
      some (cs.foldl (fun a c => a * 10 + (c.toNat - 48)) 0)
    else none

/-- Rust `str::parse` for an unsigned type with maximum `bound`:
an optional leading `+`, then one or more ASCII digits, value in range. -/
def parseUnsigned (bound : Nat) (s : String) : Option Nat :=
  let cs :=
    match s.toList with
    | '+' :: rest => rest
    | other => other
  match digitsToNat cs with
  | some n => if n ≤ bound then some n else none
  | none => none

/-- Rust `str::parse::<u64>()`. -/
def parseU64 (s : String) : Option Nat := parseUnsigned (2 ^ 64 - 1) s

/-- Rust `str::parse::<u32>()`. -/
def parseU32 (s : String) : Option Nat := parseUnsigned (2 ^ 32 - 1) s

/-- Rust `str::parse::<i32>()`: optional sign, digits, two's-complement range. -/
def parseI32 (s : String) : Option Int :=
  match s.toList with
  | '-' :: rest =>
    (digitsToNat rest).bind fun n =>
      if n ≤ 2 ^ 31 then some (-(n : Int)) else none
  | '+' :: rest =>
    (digitsToNat rest).bind fun n =>
      if n ≤ 2 ^ 31 - 1 then some (n : Int) else none
  | _ =>
    (digitsToNat s.toList).bind fun n =>
      if n ≤ 2 ^ 31 - 1 then some (n : Int) else none

/- ------------------------------------------------------------------ -/
/- Environment variables                                              -/
/- ------------------------------------------------------------------ -/

/-- The process environment: `env k = some v` models `env::var(k) = Ok(v)`. -/
abbrev Env := String → Option String

/-- Environment with every variable unset. -/
def emptyEnv : Env := fun _ => none

/- ------------------------------------------------------------------ -/
/- Device model and the monitor-source discovery heuristic            -/
/- (pipeline.rs, `pick_pulse_monitor`)                                -/
/- ------------------------------------------------------------------ -/

/-- The GStreamer device properties `pick_pulse_monitor` queries. -/
structure DeviceProps where
  device : Option String
  nodeName : Option String
  deviceDescription : Option String
deriving DecidableEq

/-- One enumerated device as seen by the `DeviceMonitor`. -/
structure Device where
  displayName : String
  deviceClass : String
  props : Option DeviceProps
deriving DecidableEq

/-- The monitor classification of `pick_pulse_monitor`: the display name
contains "monitor" (lower-cased), or the properties exist and the device
description or the node name contains "monitor" (lower-cased). -/
def isMonitor (d : Device) : Bool :=
  strContains (lowerStr d.displayName) "monitor" ||
    (match d.props with
     | some p =>
       (match p.deviceDescription with
        | some desc => strContains (lowerStr desc) "monitor"
        | none => false) ||
       (match p.nodeName with
        | some nn => strContains (lowerStr nn) "monitor"
        | none => false)
     | none => false)

/-- The connectable identifier extracted from the properties: the raw
`device` property, else the `node.name` property, else nothing. -/
def devId (d : Device) : Option String :=
  match d.props with
  | some p =>
    match p.device with
    | some v => some v
    | none => p.nodeName
  | none => none

/-- `dev_id.unwrap_or(name)`: the identifier a monitor candidate contributes. -/
def candidateId (d : Device) : String :=
  (devId d).getD d.displayName

/-- `if first_monitor.is_none() { first_monitor = Some(id) }`. -/
def firstMonUpd (fm : Option String) (id : String) : Option String :=
  match fm with
  | none => some id
  | some x => some x

/-- The device loop of `pick_pulse_monitor`: `hint` is the already
lower-cased preference substring; `fm` accumulates `first_monitor`.
Returning `some id` on a hint match models setting `preferred` and
breaking out of the loop (the final result is `preferred.or(first_monitor)`). -/
def pickLoop (hint : Option String) : List Device → Option String → Option String
  | [], fm => fm
  | d :: ds, fm =>
    if isMonitor d then
      let id := candidateId d
      let fm' := firstMonUpd fm id
      match hint with
      | some h =>
        if strContains (lowerStr d.displayName) h || strContains (lowerStr id) h then
          some id
        else pickLoop hint ds fm'
      | none => pickLoop hint ds fm'
    else pickLoop hint ds fm

/-- `pick_pulse_monitor(prefer_contains)` over an enumeration `devices`;
`monStartOk` models whether `mon.start()` succeeded (`.ok()?` returns
`none` otherwise). -/
def pick_pulse_monitor (monStartOk : Bool) (preferContains : Option String)
    (devices : List Device) : Option String :=
  if monStartOk then
    pickLoop (preferContains.map lowerStr) devices none
  else none

/- ------------------------------------------------------------------ -/
/- The engine abstraction: element factories, property support, links -/
/- ------------------------------------------------------------------ -/

/-- Compilation target: the source has `cfg(target_os)` branches for both. -/
inductive Platform
  | macos
  | linux
deriving DecidableEq

/-- The GStreamer engine as the builders observe it:
which element factories `ElementFactory::make` can instantiate,
which properties `has_property` reports per factory,
whether `link_many` succeeds, and whether `DeviceMonitor::start` succeeds. -/
structure Engine where
  factoryAvailable : String → Bool
  hasProp : String → String → Bool
  linkOk : Bool
  deviceMonStartOk : Bool

/-- An engine on which everything is available and succeeds. -/
def fullEngine : Engine :=
  { factoryAvailable := fun _ => true
    hasProp := fun _ _ => true
    linkOk := true
    deviceMonStartOk := true }

/-- `make_element(factory, name)`: fails iff the factory is unavailable. -/
def make_element (eng : Engine) (factory : String) (nm : String) : Except String Unit :=
  if eng.factoryAvailable factory then Except.ok ()
  else Except.error ("failed to make element " ++ factory ++ " as " ++ nm)

/-- `gst::Element::link_many`: fails iff the engine cannot link the chain. -/
def linkAll (eng : Engine) : Except String Unit :=
  if eng.linkOk then Except.ok () else Except.error "link_many failed"

/-- Sequence two fallible steps, propagating the first error. -/
def andThenE (a : Except String Unit) (b : Except String α) : Except String α :=
  match a with
  | Except.ok _ => b
  | Except.error e => Except.error e

/-- Is an `Except` an `ok` value? -/
def exceptOk : Except String α → Bool
  | Except.ok _ => true
  | Except.error _ => false

/- ------------------------------------------------------------------ -/
/- Sender configuration (the properties `build_sender` sets)          -/
/- ------------------------------------------------------------------ -/

/-- The raw-audio caps enforced before the encoder. -/
structure AudioCaps where
  rate : Int
  channels : Int
  format : String
  layout : String
deriving DecidableEq

/-- A `queue` element's three size caps. -/
structure QueueCfg where
  maxSizeBuffers : Nat
  maxSizeBytes : Nat
  maxSizeTime : Nat
deriving DecidableEq

/-- A `level` element's optional properties (set only when supported). -/
structure LevelCfg where
  intervalNs : Option Nat
  postMessages : Option Bool
deriving DecidableEq

/-- The `opusenc` element's properties. -/
structure OpusEncCfg where
  bitrate : Int
  inbandFec : Bool
  frameSize : Option String
  complexity : Option Int
deriving DecidableEq

/-- A capture device selection: macOS uses an integer index, Linux a name. -/
inductive SrcDevice
  | index (i : Int)
  | name (s : String)
deriving DecidableEq

/-- The capture source element's properties (`none` = never set, the
backend default applies). -/
structure SrcCfg where
  device : Option SrcDevice
  bufferTimeUs : Option Nat
  latencyTimeUs : Option Nat
deriving DecidableEq

/-- Everything `build_sender` configures on the assembled graph. -/
structure SenderCfg where
  src : SrcCfg
  q_src : QueueCfg
  caps : AudioCaps
  level_tx : LevelCfg
  opusenc : OpusEncCfg
  payPt : Nat
  sinkHost : String
  sinkPort : Int
  sinkSync : Bool
  sinkAsync : Bool
deriving DecidableEq

/-- The source factory per platform (`osxaudiosrc` / `pulsesrc`). -/
def srcFactoryName : Platform → String
  | Platform.macos => "osxaudiosrc"
  | Platform.linux => "pulsesrc"

/-- macOS source branch of `build_sender`: buffer/latency defaults
200 000 µs and 10 000 µs overridable by `AB_SRC_BUFFER_US` /
`AB_SRC_LATENCY_US`; the device hint must parse as an `i32` index or is
discarded with a warning. -/
def macosSrcCfg (eng : Engine) (env : Env) (device_name : Option String) : SrcCfg :=
  let srcBufUs := ((env "AB_SRC_BUFFER_US").bind parseU64).getD 200000
  let srcLatUs := ((env "AB_SRC_LATENCY_US").bind parseU64).getD 10000
  { device :=
      match device_name with
      | some nm =>
        if eng.hasProp "osxaudiosrc" "device" then
          match parseI32 nm with
          | some idx => some (SrcDevice.index idx)
          | none => none
        else none
      | none => none
    bufferTimeUs := if eng.hasProp "osxaudiosrc" "buffer-time" then some srcBufUs else none
    latencyTimeUs := if eng.hasProp "osxaudiosrc" "latency-time" then some srcLatUs else none }

/-- Linux source branch of `build_sender`: an explicit hint is used
verbatim; otherwise `pick_pulse_monitor` runs with the `MONITOR_HINT`
preference; buffer/latency are set only when the variables parse. -/
def linuxSrcCfg (eng : Engine) (env : Env) (devices : List Device)
    (device_name : Option String) : SrcCfg :=
  { device :=
      match device_name with
      | some dev =>
        if eng.hasProp "pulsesrc" "device" then some (SrcDevice.name dev) else none
      | none =>
        match pick_pulse_monitor eng.deviceMonStartOk (env "MONITOR_HINT") devices with
        | some dev =>
          if eng.hasProp "pulsesrc" "device" then some (SrcDevice.name dev) else none
        | none => none
    bufferTimeUs :=
      match (env "AB_SRC_BUFFER_US").bind parseU64 with
      | some v => if eng.hasProp "pulsesrc" "buffer-time" then some v else none
      | none => none
    latencyTimeUs :=
      match (env "AB_SRC_LATENCY_US").bind parseU64 with
      | some v => if eng.hasProp "pulsesrc" "latency-time" then some v else none
      | none => none }

/-- The full property configuration `build_sender` applies (properties
cannot fail; element creation and linking are checked in `build_sender`). -/
def senderCfg (plat : Platform) (eng : Engine) (env : Env) (devices : List Device)
    (device_name : Option String) (host : String) (port : Nat) : SenderCfg :=
  { src :=
      match plat with
      | Platform.macos => macosSrcCfg eng env device_name
      | Platform.linux => linuxSrcCfg eng env devices device_name
    q_src := { maxSizeBuffers := 0, maxSizeBytes := 0, maxSizeTime := 20000000 }
    caps := { rate := 48000, channels := 2, format := "S16LE", layout := "interleaved" }
    level_tx :=
      { intervalNs := if eng.hasProp "level" "interval" then some 100000000 else none
        postMessages := if eng.hasProp "level" "post-messages" then some true else none }
    opusenc :=
      { bitrate := 256000
        inbandFec := false
        frameSize := if eng.hasProp "opusenc" "frame-size" then some "2.5" else none
        complexity := if eng.hasProp "opusenc" "complexity" then some 5 else none }
    payPt := 97
    sinkHost := host
    sinkPort := (port : Int)
    sinkSync := false
    sinkAsync := false }

/-- `build_sender(device_name, host, port)`: create each element in source
order (failing fast on a missing factory), link the chain, and return the
configured graph. -/
def build_sender (plat : Platform) (eng : Engine) (env : Env) (devices : List Device)
    (device_name : Option String) (host : String) (port : Nat) : Except String SenderCfg :=
  andThenE (make_element eng (srcFactoryName plat) "src") <|
  andThenE (make_element eng "queue" "q_src") <|
  andThenE (make_element eng "audioconvert" "aconv") <|
  andThenE (make_element eng "audioresample" "ares") <|
  andThenE (make_element eng "capsfilter" "acaps") <|
  andThenE (make_element eng "level" "level_tx") <|
  andThenE (make_element eng "opusenc" "opusenc") <|
  andThenE (make_element eng "rtpopuspay" "pay") <|
  andThenE (make_element eng "udpsink" "udpsink") <|
  andThenE (linkAll eng) <|
  Except.ok (senderCfg plat eng env devices device_name host port)

/-- The factories `build_sender` must instantiate, in creation order. -/
def senderFactories (plat : Platform) : List String :=
  [srcFactoryName plat, "queue", "audioconvert", "audioresample", "capsfilter",
   "level", "opusenc", "rtpopuspay", "udpsink"]

/-- All sender factories are available on the engine. -/
def senderFactoriesOk (plat : Platform) (eng : Engine) : Bool :=
  (senderFactories plat).all eng.factoryAvailable

/- ------------------------------------------------------------------ -/
/- Receiver configuration (the properties `build_receiver` sets)      -/
/- ------------------------------------------------------------------ -/

/-- The RTP caps on the receiver's UDP source. -/
structure RtpCaps where
  media : String
  encodingName : String
  clockRate : Int
  payload : Int
deriving DecidableEq

/-- The `rtpjitterbuffer` element's optional properties. -/
structure JitterCfg where
  latencyMs : Option Nat
  dropOnLate : Option Bool
  doLost : Option Bool
deriving DecidableEq

/-- Which render sink `build_receiver` chooses. -/
inductive SinkKind
  | osxaudiosink
  | pulsesinkEnvDevice (dev : String)
  | autoaudiosink
  | pulsesinkDefault
deriving DecidableEq

/-- The render sink's properties. -/
structure SinkCfg where
  kind : SinkKind
  device : Option String
  bufferTimeUs : Option Nat
  latencyTimeUs : Option Nat
  sync : Option Bool
deriving DecidableEq

/-- Everything `build_receiver` configures on the assembled graph. -/
structure ReceiverCfg where
  udpsrcPort : Int
  udpsrcCaps : RtpCaps
  q_net : QueueCfg
  jitter : JitterCfg
  plc : Option Bool
  level : LevelCfg
  q_sink : QueueCfg
  sink : SinkCfg
deriving DecidableEq

/-- The sink-selection chain of `build_receiver`: macOS native sink,
else `PULSE_SINK` device, else `AUTO_SINK=1` automatic sink, else the
default pulse sink. -/
def sinkKindChoice (plat : Platform) (env : Env) : SinkKind :=
  match plat with
  | Platform.macos => SinkKind.osxaudiosink
  | Platform.linux =>
    match env "PULSE_SINK" with
    | some dev => SinkKind.pulsesinkEnvDevice dev
    | none =>
      if env "AUTO_SINK" = some "1" then SinkKind.autoaudiosink
      else SinkKind.pulsesinkDefault

/-- The factory behind each sink kind. -/
def sinkFactoryName : SinkKind → String
  | SinkKind.osxaudiosink => "osxaudiosink"
  | SinkKind.pulsesinkEnvDevice _ => "pulsesink"
  | SinkKind.autoaudiosink => "autoaudiosink"
  | SinkKind.pulsesinkDefault => "pulsesink"

/-- The full property configuration `build_receiver` applies. -/
def receiverCfg (plat : Platform) (eng : Engine) (env : Env) (listenPort : Nat) : ReceiverCfg :=
  let jitterMs := ((env "JITTER_MS").bind parseU32).getD 30
  let kind := sinkKindChoice plat env
  let sf := sinkFactoryName kind
  let sinkBufUs := ((env "SINK_BUFFER_US").bind parseU64).getD 70000
  let sinkLatUs := ((env "SINK_LATENCY_US").bind parseU64).getD 15000
  { udpsrcPort := (listenPort : Int)
    udpsrcCaps := { media := "audio", encodingName := "OPUS", clockRate := 48000, payload := 97 }
    q_net := { maxSizeBuffers := 0, maxSizeBytes := 0, maxSizeTime := 20000000 }
    jitter :=
      { latencyMs := if eng.hasProp "rtpjitterbuffer" "latency" then some jitterMs else none
        dropOnLate :=
          if eng.hasProp "rtpjitterbuffer" "drop-on-late" then
            some (match env "DROP_ON_LATE" with
                  | some v => v == "1"
                  | none => true)
          else none
        doLost := if eng.hasProp "rtpjitterbuffer" "do-lost" then some true else none }
    plc :=
      if eng.hasProp "opusdec" "plc" then
        some (match env "PLC" with
              | some v => v == "1"
              | none => false)
      else none
    level :=
      { intervalNs := if eng.hasProp "level" "interval" then some 100000000 else none
        postMessages := if eng.hasProp "level" "post-messages" then some true else none }
    q_sink := { maxSizeBuffers := 0, maxSizeBytes := 0, maxSizeTime := 20000000 }
    sink :=
      { kind := kind
        device :=
          match kind with
          | SinkKind.pulsesinkEnvDevice dev =>
            if eng.hasProp "pulsesink" "device" then some dev else none
          | _ => none
        bufferTimeUs := if eng.hasProp sf "buffer-time" then some sinkBufUs else none
        latencyTimeUs := if eng.hasProp sf "latency-time" then some sinkLatUs else none
        sync :=
          if eng.hasProp sf "sync" then
            some (match env "SINK_SYNC" with
                  | some v => v != "0"
                  | none => true)
          else none } }

/-- `build_receiver(listen_port)`: create each element in source order
(failing fast on a missing factory), link the chain, and return the
configured graph. -/
def build_receiver (plat : Platform) (eng : Engine) (env : Env)
    (listenPort : Nat) : Except String ReceiverCfg :=
  andThenE (make_element eng "udpsrc" "udpsrc") <|
  andThenE (make_element eng "queue" "q_net") <|
  andThenE (make_element eng "rtpjitterbuffer" "jbuf") <|
  andThenE (make_element eng "rtpopusdepay" "depay") <|
  andThenE (make_element eng "opusdec" "opusdec") <|
  andThenE (make_element eng "audioconvert" "aconv") <|
  andThenE (make_element eng "audioresample" "ares") <|
  andThenE (make_element eng "level" "level") <|
  andThenE (make_element eng "queue" "q_sink") <|
  andThenE (make_element eng (sinkFactoryName (sinkKindChoice plat env)) "sink") <|
  andThenE (linkAll eng) <|
  Except.ok (receiverCfg plat eng env listenPort)

/-- The factories `build_receiver` must instantiate, in creation order. -/
def receiverFactories (plat : Platform) (env : Env) : List String :=
  ["udpsrc", "queue", "rtpjitterbuffer", "rtpopusdepay", "opusdec",
   "audioconvert", "audioresample", "level", "queue",
   sinkFactoryName (sinkKindChoice plat env)]

/-- All receiver factories are available on the engine. -/
def receiverFactoriesOk (plat : Platform) (eng : Engine) (env : Env) : Bool :=
  (receiverFactories plat env).all eng.factoryAvailable

/- ------------------------------------------------------------------ -/
/- Throughput sampler (`attach_tx_stats` buffer probe)                -/
/- ------------------------------------------------------------------ -/

/-- The mutex-guarded accumulator `(packet count, byte count, window
start)`; times are monotonic-clock nanoseconds (`Instant`). -/
structure TxState where
  pkts : Nat
  bytes : Nat
  start : Nat
deriving DecidableEq

/-- One logged report: the counts and the elapsed window in nanoseconds. -/
structure TxReport where
  pkts : Nat
  bytes : Nat
  elapsedNs : Nat
deriving DecidableEq

/-- Elapsed window in seconds, `dt.as_secs_f64()`. -/
def TxReport.elapsedSecs (r : TxReport) : ℚ :=
  (r.elapsedNs : ℚ) / 1000000000

/-- The logged packet rate, `pkts as f64 / dt.as_secs_f64()`. -/
def TxReport.packetsPerSecond (r : TxReport) : ℚ :=
  (r.pkts : ℚ) / r.elapsedSecs

/-- The logged bit rate in kbit/s, `(bytes * 8 / dt) / 1000`. -/
def TxReport.kbitPerSecond (r : TxReport) : ℚ :=
  (r.bytes : ℚ) * 8 / r.elapsedSecs / 1000

/-- One buffer-probe invocation of `attach_tx_stats`: count the buffer,
then emit a report and reset to `(0, 0, now)` when the window has
reached one second. -/
def txStep (s : TxState) (sz : Nat) (now : Nat) : TxState × Option TxReport :=
  let p := s.pkts + 1
  let b := s.bytes + sz
  let dt := now - s.start
  if 1000000000 ≤ dt then
    ({ pkts := 0, bytes := 0, start := now }, some { pkts := p, bytes := b, elapsedNs := dt })
  else
    ({ pkts := p, bytes := b, start := s.start }, none)

/-- Run the probe over a sequence of observed buffers `(size, time)`,
collecting the emitted reports in order. -/
def txRun (s : TxState) : List (Nat × Nat) → TxState × List TxReport
  | [] => (s, [])
  | e :: es =>
    match txStep s e.1 e.2 with
    | (s1, some r) => ((txRun s1 es).1, r :: (txRun s1 es).2)
    | (s1, none) => txRun s1 es

/- ------------------------------------------------------------------ -/
/- Lifecycle: Sender::start/stop and Receiver::start/stop             -/
/- ------------------------------------------------------------------ -/

/-- GStreamer pipeline states reachable through this core. -/
inductive GstState
  | null
  | ready
  | paused
  | playing
deriving DecidableEq

/-- A pipeline as the lifecycle methods see it: just its current state. -/
structure GPipeline where
  state : GstState
deriving DecidableEq

/-- `pipeline.set_state(target)`: the engine either accepts the
transition (new state is `target`) or rejects it with an error
(state left as the engine pleases; we keep the old one). -/
def set_state (p : GPipeline) (target : GstState) (engineAccepts : Bool) :
    GPipeline × Except String Unit :=
  if engineAccepts then ({ state := target }, Except.ok ())
  else (p, Except.error "state change failed")

/-- The sender handle. -/
structure SenderP where
  pipeline : GPipeline
deriving DecidableEq

/-- The receiver handle. -/
structure ReceiverP where
  pipeline : GPipeline
deriving DecidableEq

/-- `Sender::start`: request Playing, propagating any engine error. -/
def SenderP.start (s : SenderP) (engineAccepts : Bool) : SenderP × Except String Unit :=
  let r := set_state s.pipeline GstState.playing engineAccepts
  match r.2 with
  | Except.ok _ => ({ pipeline := r.1 }, Except.ok ())
  | Except.error e => ({ pipeline := r.1 }, Except.error ("sender: set_state(Playing): " ++ e))

/-- `Sender::stop`: request Null and discard the result (`let _ = ...`). -/
def SenderP.stop (s : SenderP) (engineAccepts : Bool) : SenderP × Except String Unit :=
  let r := set_state s.pipeline GstState.null engineAccepts
  ({ pipeline := r.1 }, Except.ok ())

/-- `Receiver::start`: request Playing, propagating any engine error. -/
def ReceiverP.start (s : ReceiverP) (engineAccepts : Bool) : ReceiverP × Except String Unit :=
  let r := set_state s.pipeline GstState.playing engineAccepts
  match r.2 with
  | Except.ok _ => ({ pipeline := r.1 }, Except.ok ())
  | Except.error e => ({ pipeline := r.1 }, Except.error ("receiver: set_state(Playing): " ++ e))

/-- `Receiver::stop`: request Null and discard the result (`let _ = ...`). -/
def ReceiverP.stop (s : ReceiverP) (engineAccepts : Bool) : ReceiverP × Except String Unit :=
  let r := set_state s.pipeline GstState.null engineAccepts
  ({ pipeline := r.1 }, Except.ok ())

/- ------------------------------------------------------------------ -/
/- Helper lemmas                                                      -/
/- ------------------------------------------------------------------ -/

theorem andThenE_ok {α : Type} (a : Except String Unit) (b : Except String α) (x : α) :
    andThenE a b = Except.ok x ↔ a = Except.ok () ∧ b = Except.ok x := by
  cases a with
  | ok u => cases u; simp [andThenE]
  | error e => simp [andThenE]

theorem make_element_ok (eng : Engine) (f nm : String) :
    make_element eng f nm = Except.ok () ↔ eng.factoryAvailable f = true := by
  by_cases h : eng.factoryAvailable f <;> simp [make_element, h]

theorem linkAll_ok (eng : Engine) :
    linkAll eng = Except.ok () ↔ eng.linkOk = true := by
  by_cases h : eng.linkOk <;> simp [linkAll, h]

theorem build_sender_ok_iff (plat : Platform) (eng : Engine) (env : Env)
    (devices : List Device) (dn : Option String) (host : String) (port : Nat)
    (s : SenderCfg) :
    build_sender plat eng env devices dn host port = Except.ok s ↔
      senderFactoriesOk plat eng = true ∧ eng.linkOk = true ∧
        s = senderCfg plat eng env devices dn host port := by
  simp only [build_sender, andThenE_ok, make_element_ok, linkAll_ok,
    senderFactoriesOk, senderFactories, List.all_cons, List.all_nil,
    Bool.and_eq_true, Bool.and_true, Except.ok.injEq]
  constructor
  · rintro ⟨h1, h2, h3, h4, h5, h6, h7, h8, h9, h10, h11⟩
    exact ⟨⟨h1, h2, h3, h4, h5, h6, h7, h8, h9⟩, h10, h11.symm⟩
  · rintro ⟨⟨h1, h2, h3, h4, h5, h6, h7, h8, h9⟩, h10, h11⟩
    exact ⟨h1, h2, h3, h4, h5, h6, h7, h8, h9, h10, h11.symm⟩

theorem build_receiver_ok_iff (plat : Platform) (eng : Engine) (env : Env)
    (listenPort : Nat) (r : ReceiverCfg) :
    build_receiver plat eng env listenPort = Except.ok r ↔
      receiverFactoriesOk plat eng env = true ∧ eng.linkOk = true ∧
        r = receiverCfg plat eng env listenPort := by
  simp only [build_receiver, andThenE_ok, make_element_ok, linkAll_ok,
    receiverFactoriesOk, receiverFactories, List.all_cons, List.all_nil,
    Bool.and_eq_true, Bool.and_true, Except.ok.injEq]
  constructor
  · rintro ⟨h1, h2, h3, h4, h5, h6, h7, h8, h9, h10, h11, h12⟩
    exact ⟨⟨h1, h2, h3, h4, h5, h6, h7, h8, h9, h10⟩, h11, h12.symm⟩
  · rintro ⟨⟨h1, h2, h3, h4, h5, h6, h7, h8, h9, h10⟩, h11, h12⟩
    exact ⟨h1, h2, h3, h4, h5, h6, h7, h8, h9, h10, h11, h12.symm⟩

theorem pickLoop_none_eq (devs : List Device) (fm : Option String) :
    pickLoop none devs fm = fm.or ((devs.find? isMonitor).map candidateId) := by
  induction devs generalizing fm with
  | nil => cases fm <;> simp [pickLoop]
  | cons d ds ih =>
    by_cases h : isMonitor d
    · rw [pickLoop]
      simp only [h, if_true, List.find?_cons_of_pos _ h]
      cases fm <;> simp [firstMonUpd, ih]
    · rw [pickLoop, if_neg (by simp [h]), List.find?_cons_of_neg _ h]
      exact ih fm

theorem find?_isSome_eq_any (devs : List Device) :
    (devs.find? isMonitor).isSome = devs.any isMonitor := by
  induction devs with
  | nil => simp
  | cons d ds ih =>
    by_cases h : isMonitor d
    · simp [List.find?_cons_of_pos _ h, h]
    · rw [List.find?_cons_of_neg _ h]
      simp [h, ih]

/-- The per-device hint test of `pick_pulse_monitor`: the device is a
monitor candidate and its (lower-cased) display name or connectable
identifier contains the (lower-cased) hint. -/
def hintMatches (h : String) (d : Device) : Bool :=
  isMonitor d &&
    (strContains (lowerStr d.displayName) h || strContains (lowerStr (candidateId d)) h)

theorem pickLoop_hint_first_match (h : String) (pre : List Device) (post : List Device)
    (d : Device) (fm : Option String)
    (hpre : ∀ p ∈ pre, hintMatches h p = false)
    (hd : hintMatches h d = true) :
    pickLoop (some h) (pre ++ d :: post) fm = some (candidateId d) := by
  have hmon : isMonitor d = true := by
    have := hd
    simp only [hintMatches, Bool.and_eq_true] at this
    exact this.1
  have htest : (strContains (lowerStr d.displayName) h ||
      strContains (lowerStr (candidateId d)) h) = true := by
    have := hd
    simp only [hintMatches, Bool.and_eq_true] at this
    exact this.2
  induction pre generalizing fm with
  | nil =>
    rw [List.nil_append, pickLoop]
    simp [hmon, htest]
  | cons p ps ih =>
    have hp : hintMatches h p = false := hpre p (List.mem_cons_self p ps)
    have hps : ∀ q ∈ ps, hintMatches h q = false := fun q hq =>
      hpre q (List.mem_cons_of_mem p hq)
    rw [List.cons_append, pickLoop]
    by_cases hm : isMonitor p
    · have hptest : (strContains (lowerStr p.displayName) h ||
          strContains (lowerStr (candidateId p)) h) = false := by
        simp only [hintMatches, hm, Bool.true_and] at hp
        exact hp
      simp only [hm, if_true, hptest, Bool.false_eq_true, if_false]
      exact ih _ hps
    · simp only [hm, Bool.false_eq_true, if_false]
      exact ih _ hps

theorem pickLoop_hint_no_match (h : String) (devs : List Device) (fm : Option String)
    (hall : ∀ p ∈ devs, hintMatches h p = false) :
    pickLoop (some h) devs fm = pickLoop none devs fm := by
  induction devs generalizing fm with
  | nil => rfl
  | cons d ds ih =>
    have hd : hintMatches h d = false := hall d (List.mem_cons_self d ds)
    have hds : ∀ q ∈ ds, hintMatches h q = false := fun q hq =>
      hall q (List.mem_cons_of_mem d hq)
    rw [pickLoop, pickLoop]
    by_cases hm : isMonitor d
    · have hdtest : (strContains (lowerStr d.displayName) h ||
          strContains (lowerStr (candidateId d)) h) = false := by
        simp only [hintMatches, hm, Bool.true_and] at hd
        exact hd
      simp only [hm, if_true, hdtest, Bool.false_eq_true, if_false]
      exact ih _ hds
    · simp only [hm, Bool.false_eq_true, if_false]
      exact ih _ hds

/- ------------------------------------------------------------------ -/
/- Claim theorems                                                     -/
/- ------------------------------------------------------------------ -/

/-- Claim C1: with no preference hint, the capture-device selector
(`pick_pulse_monitor`, backing `resolve_capture(None)`) returns a
(non-empty) selection exactly when some enumerated audio-source device is
classified as a monitor — its display name, device description, or node
name contains "monitor" case-insensitively (`isMonitor`); with zero such
devices it returns none. -/
theorem resolve_capture_none_monitor (devs : List Device) :
    (pick_pulse_monitor true none devs).isSome = devs.any isMonitor := by
  rw [pick_pulse_monitor, if_pos rfl]
  show (pickLoop none devs none).isSome = devs.any isMonitor
  rw [pickLoop_none_eq, Option.none_or, ← find?_isSome_eq_any devs]
  cases List.find? isMonitor devs <;> rfl

/-- Claim C2: with a preference substring configured, the selector
returns the identifier of the first monitor candidate whose name or
identifier contains the (lower-cased) substring, regardless of earlier
non-matching monitors and of anything enumerated after it (the scan
short-circuits); when no candidate matches, it returns the first monitor
found. -/
theorem resolve_capture_hint_preference (pref : String) (pre post : List Device)
    (d : Device)
    (hpre : ∀ p ∈ pre, hintMatches (lowerStr pref) p = false)
    (hd : hintMatches (lowerStr pref) d = true) :
    pick_pulse_monitor true (some pref) (pre ++ d :: post) = some (candidateId d) ∧
    (∀ devs : List Device, (∀ p ∈ devs, hintMatches (lowerStr pref) p = false) →
      pick_pulse_monitor true (some pref) devs =
        (devs.find? isMonitor).map candidateId) := by
  constructor
  · rw [pick_pulse_monitor, if_pos rfl]
    show pickLoop (some (lowerStr pref)) (pre ++ d :: post) none = some (candidateId d)
    exact pickLoop_hint_first_match (lowerStr pref) pre post d none hpre hd
  · intro devs hall
    rw [pick_pulse_monitor, if_pos rfl]
    show pickLoop (some (lowerStr pref)) devs none = (devs.find? isMonitor).map candidateId
    rw [pickLoop_hint_no_match (lowerStr pref) devs none hall, pickLoop_none_eq,
      Option.none_or]

/-- A monitor device that does not mention the preferred substring. -/
def dummyMon : Device := ⟨"Dummy Monitor", "Audio/Source", none⟩

/-- A monitor device whose name contains the preferred substring. -/
def blackholeMon : Device := ⟨"BlackHole Monitor", "Audio/Source", none⟩

theorem resolve_capture_hint_preference_witness :
    pick_pulse_monitor true (some "Black") ([dummyMon] ++ blackholeMon :: []) =
      some (candidateId blackholeMon) :=
  (resolve_capture_hint_preference "Black" [dummyMon] [] blackholeMon
    (by decide) (by decide)).1

/-- Claim C3: `Sender::stop` and `Receiver::stop` never return an error,
regardless of the prior pipeline state and of whether the engine accepts
the transition to Null — including on a pipeline never started and when
called twice in a row. -/
theorem stop_never_fails (s : SenderP) (r : ReceiverP) (ok1 ok2 : Bool) :
    (s.stop ok1).2 = Except.ok () ∧
    ((s.stop ok1).1.stop ok2).2 = Except.ok () ∧
    (r.stop ok1).2 = Except.ok () ∧
    ((r.stop ok1).1.stop ok2).2 = Except.ok () :=
  ⟨rfl, rfl, rfl, rfl⟩

theorem exceptOk_true_iff {α : Type} (x : Except String α) :
    exceptOk x = true ↔ ∃ v, x = Except.ok v := by
  cases x <;> simp [exceptOk]

/-- Claim C4 counterexample: with every element factory available and
linking succeeding, `build_sender` succeeds for the empty destination
host — a host no resolver can resolve and no socket can bind — instead
of returning an error: the host string is never validated at
construction. -/
theorem build_sender_invalid_host_cex :
    build_sender Platform.linux fullEngine emptyEnv [] none "" 4000 =
      Except.ok (senderCfg Platform.linux fullEngine emptyEnv [] none "" 4000) ∧
    (senderCfg Platform.linux fullEngine emptyEnv [] none "" 4000).sinkHost = "" :=
  ⟨rfl, rfl⟩

/-- Claim C4 amended: `build_sender` performs no destination-host
validation. Its outcome is decided solely by element instantiation and
linking — it fails fast (returning an error and no pipeline) exactly
when a factory is unavailable or the chain cannot link — the host string
is stored verbatim on the UDP sink, and success is independent of the
host (an unresolvable host surfaces at start/run time, not at
construction). -/
theorem build_sender_host_not_validated (plat : Platform) (eng : Engine) (env : Env)
    (devs : List Device) (dn : Option String) (host1 host2 : String) (port : Nat) :
    ((∃ s, build_sender plat eng env devs dn host1 port = Except.ok s) ↔
      senderFactoriesOk plat eng = true ∧ eng.linkOk = true) ∧
    (∀ s, build_sender plat eng env devs dn host1 port = Except.ok s →
      s.sinkHost = host1) ∧
    exceptOk (build_sender plat eng env devs dn host1 port) =
      exceptOk (build_sender plat eng env devs dn host2 port) := by
  refine ⟨⟨?_, ?_⟩, ?_, ?_⟩
  · rintro ⟨s, hs⟩
    rw [build_sender_ok_iff] at hs
    exact ⟨hs.1, hs.2.1⟩
  · rintro ⟨hf, hl⟩
    exact ⟨senderCfg plat eng env devs dn host1 port,
      (build_sender_ok_iff plat eng env devs dn host1 port _).mpr ⟨hf, hl, rfl⟩⟩
  · intro s hs
    rw [build_sender_ok_iff] at hs
    rw [hs.2.2]
    rfl
  · rw [Bool.eq_iff_iff, exceptOk_true_iff, exceptOk_true_iff]
    constructor
    · rintro ⟨s, hs⟩
      rw [build_sender_ok_iff] at hs
      exact ⟨senderCfg plat eng env devs dn host2 port,
        (build_sender_ok_iff plat eng env devs dn host2 port _).mpr
          ⟨hs.1, hs.2.1, rfl⟩⟩
    · rintro ⟨s, hs⟩
      rw [build_sender_ok_iff] at hs
      exact ⟨senderCfg plat eng env devs dn host1 port,
        (build_sender_ok_iff plat eng env devs dn host1 port _).mpr
          ⟨hs.1, hs.2.1, rfl⟩⟩

theorem txRun_in_window (start k b : Nat) (es : List (Nat × Nat))
    (hes : ∀ e ∈ es, e.2 - start < 1000000000) :
    txRun ⟨k, b, start⟩ es =
      (⟨k + es.length, b + (es.map Prod.fst).sum, start⟩, []) := by
  induction es generalizing k b with
  | nil => simp [txRun]
  | cons e es ih =>
    have he : e.2 - start < 1000000000 := hes e (List.mem_cons_self e es)
    have hes' : ∀ x ∈ es, x.2 - start < 1000000000 := fun x hx =>
      hes x (List.mem_cons_of_mem e hx)
    have hstep : txStep ⟨k, b, start⟩ e.1 e.2 = (⟨k + 1, b + e.1, start⟩, none) := by
      simp only [txStep]
      rw [if_neg (show ¬ 1000000000 ≤ e.2 - start from by omega)]
    rw [txRun, hstep]
    dsimp only
    rw [ih (k + 1) (b + e.1) hes']
    simp only [List.length_cons, List.map_cons, List.sum_cons, Prod.mk.injEq,
      TxState.mk.injEq]
    refine ⟨⟨by omega, by omega, trivial⟩, trivial⟩

theorem txRun_append (s : TxState) (xs ys : List (Nat × Nat)) :
    txRun s (xs ++ ys) =
      ((txRun (txRun s xs).1 ys).1,
        (txRun s xs).2 ++ (txRun (txRun s xs).1 ys).2) := by
  induction xs generalizing s with
  | nil => simp [txRun]
  | cons x xs ih =>
    rcases hstep : txStep s x.1 x.2 with ⟨s1, r⟩
    cases r with
    | some rep => simp [List.cons_append, txRun, hstep, ih]
    | none => simp [List.cons_append, txRun, hstep, ih]

/-- Claim C5 counterexample: one packet of size 10 observed within the
first second (at 0.5 s) followed by a packet of size 5 at 1.0 s: the
next report the sampler emits counts both packets — `(2, 15)`, not the
claimed `(n, Σ s_i) = (1, 10)` — because the probe increments the
accumulator before the window test, so the packet that triggers the
report is included in it. -/
theorem tx_report_includes_trigger_cex :
    (txRun ⟨0, 0, 0⟩ [(10, 500000000), (5, 1000000000)]).2 =
      [⟨2, 15, 1000000000⟩] ∧
    (txRun ⟨0, 0, 0⟩ [(10, 500000000), (5, 1000000000)]).2.map TxReport.pkts ≠
      [1] := by
  constructor
  · decide
  · decide

/-- Claim C5 amended: for a fresh window starting at `start`, if the
first `n - 1` packets arrive within under one second of `start` and the
`n`-th arrives once elapsed reaches a second (triggering the report),
the next emitted report has packet count exactly `n` and byte count
exactly `s_1 + ... + s_n`, with rates packets/elapsed and
bytes·8/elapsed/1000. -/
theorem tx_window_report (start : Nat) (pre : List (Nat × Nat)) (sz t : Nat)
    (hpre : ∀ e ∈ pre, e.2 - start < 1000000000)
    (ht : 1000000000 ≤ t - start) :
    (txRun ⟨0, 0, start⟩ (pre ++ [(sz, t)])).2 =
      [⟨pre.length + 1, (pre.map Prod.fst).sum + sz, t - start⟩] ∧
    TxReport.packetsPerSecond ⟨pre.length + 1, (pre.map Prod.fst).sum + sz, t - start⟩ =
      ((pre.length + 1 : Nat) : ℚ) / (((t - start : Nat) : ℚ) / 1000000000) ∧
    TxReport.kbitPerSecond ⟨pre.length + 1, (pre.map Prod.fst).sum + sz, t - start⟩ =
      (((pre.map Prod.fst).sum + sz : Nat) : ℚ) * 8 /
        (((t - start : Nat) : ℚ) / 1000000000) / 1000 := by
  refine ⟨?_, rfl, rfl⟩
  have hstep : txStep ⟨pre.length, (pre.map Prod.fst).sum, start⟩ sz t =
      (⟨0, 0, t⟩, some ⟨pre.length + 1, (pre.map Prod.fst).sum + sz, t - start⟩) := by
    simp only [txStep]
    rw [if_pos ht]
  simp [txRun_append, txRun_in_window start 0 0 pre hpre, txRun, hstep]

theorem tx_window_report_witness :
    (txRun ⟨0, 0, 0⟩ ([(10, 0)] ++ [(5, 1000000000)])).2 =
      [⟨[(10, 0)].length + 1, ([(10, 0)].map Prod.fst).sum + 5, 1000000000 - 0⟩] ∧
    TxReport.packetsPerSecond
        ⟨[(10, 0)].length + 1, ([(10, 0)].map Prod.fst).sum + 5, 1000000000 - 0⟩ =
      (([(10, 0)].length + 1 : Nat) : ℚ) / (((1000000000 - 0 : Nat) : ℚ) / 1000000000) ∧
    TxReport.kbitPerSecond
        ⟨[(10, 0)].length + 1, ([(10, 0)].map Prod.fst).sum + 5, 1000000000 - 0⟩ =
      ((([(10, 0)].map Prod.fst).sum + 5 : Nat) : ℚ) * 8 /
        (((1000000000 - 0 : Nat) : ℚ) / 1000000000) / 1000 :=
  tx_window_report 0 [(10, 0)] 5 1000000000 (by decide) (by decide)

/-- Claim C6: whenever the sampler emits a report, the accumulator is
reset to exactly `(0, 0, now)`; a single subsequent packet of size `k`
then yields a next report of exactly one packet and `k` bytes when it
triggers the window (and an accumulator of exactly `(1, k)` when it does
not) — no count or byte carry-over across window resets. -/
theorem tx_reset_no_carry (s : TxState) (sz now : Nat) (s' : TxState) (r : TxReport)
    (h : txStep s sz now = (s', some r)) :
    s' = ⟨0, 0, now⟩ ∧
    (∀ k t, 1000000000 ≤ t - now →
      txStep s' k t = (⟨0, 0, t⟩, some ⟨1, k, t - now⟩)) ∧
    (∀ k t, t - now < 1000000000 → txStep s' k t = (⟨1, k, now⟩, none)) := by
  have hs' : s' = ⟨0, 0, now⟩ := by
    rw [txStep] at h
    split at h
    · simp only [Prod.mk.injEq] at h
      exact h.1.symm
    · simp only [Prod.mk.injEq] at h
      exact absurd h.2 (by simp)
  subst hs'
  refine ⟨rfl, ?_, ?_⟩
  · intro k t htw
    simp only [txStep]
    rw [if_pos htw]
    simp
  · intro k t htw
    simp only [txStep]
    rw [if_neg (show ¬ 1000000000 ≤ t - now from by omega)]
    simp

theorem tx_reset_no_carry_witness :
    txStep (⟨0, 0, 0⟩ : TxState) 10 1000000000 =
      (⟨0, 0, 1000000000⟩, some ⟨1, 10, 1000000000⟩) ∧
    txStep (⟨0, 0, 1000000000⟩ : TxState) 7 2000000000 =
      (⟨0, 0, 2000000000⟩, some ⟨1, 7, 1000000000⟩) :=
  ⟨by decide,
   (tx_reset_no_carry ⟨0, 0, 0⟩ 10 1000000000 ⟨0, 0, 1000000000⟩
      ⟨1, 10, 1000000000⟩ (by decide)).2.1 7 2000000000 (by decide)⟩

/-- Claim C7: every successfully built sender fixes RTP payload type 97
on the payloader and 48 000 Hz / 2-channel raw audio before the Opus
encoder, and every successfully built receiver restricts its UDP source
to RTP with media "audio", encoding name "OPUS", clock rate 48 000 and
payload 97 — so the network-facing formats of any sender/receiver pair
agree. -/
theorem sender_receiver_formats_agree (plat1 plat2 : Platform) (eng1 eng2 : Engine)
    (env1 env2 : Env) (devs : List Device) (dn : Option String) (host : String)
    (port listen : Nat) (s : SenderCfg) (r : ReceiverCfg)
    (hs : build_sender plat1 eng1 env1 devs dn host port = Except.ok s)
    (hr : build_receiver plat2 eng2 env2 listen = Except.ok r) :
    s.payPt = 97 ∧ s.caps.rate = 48000 ∧ s.caps.channels = 2 ∧
    r.udpsrcCaps = ⟨"audio", "OPUS", 48000, 97⟩ ∧
    (s.payPt : Int) = r.udpsrcCaps.payload ∧
    s.caps.rate = r.udpsrcCaps.clockRate := by
  rw [build_sender_ok_iff] at hs
  rw [build_receiver_ok_iff] at hr
  rw [hs.2.2, hr.2.2]
  exact ⟨rfl, rfl, rfl, rfl, rfl, rfl⟩

theorem sender_receiver_formats_agree_witness :
    (senderCfg Platform.linux fullEngine emptyEnv [] none "127.0.0.1" 5004).payPt = 97 ∧
    (senderCfg Platform.linux fullEngine emptyEnv [] none "127.0.0.1" 5004).caps.rate = 48000 ∧
    (senderCfg Platform.linux fullEngine emptyEnv [] none "127.0.0.1" 5004).caps.channels = 2 ∧
    (receiverCfg Platform.linux fullEngine emptyEnv 5004).udpsrcCaps = ⟨"audio", "OPUS", 48000, 97⟩ ∧
    ((senderCfg Platform.linux fullEngine emptyEnv [] none "127.0.0.1" 5004).payPt : Int) =
      (receiverCfg Platform.linux fullEngine emptyEnv 5004).udpsrcCaps.payload ∧
    (senderCfg Platform.linux fullEngine emptyEnv [] none "127.0.0.1" 5004).caps.rate =
      (receiverCfg Platform.linux fullEngine emptyEnv 5004).udpsrcCaps.clockRate :=
  sender_receiver_formats_agree Platform.linux Platform.linux fullEngine fullEngine
    emptyEnv emptyEnv [] none "127.0.0.1" 5004 5004
    (senderCfg Platform.linux fullEngine emptyEnv [] none "127.0.0.1" 5004)
    (receiverCfg Platform.linux fullEngine emptyEnv 5004) rfl rfl

/-- Claim C8: with no configuration overrides set (here: `JITTER_MS`
unset; the remaining defaults are unconditional), construction applies
encoder bitrate 256 000 bit/s, encoder frame duration 2.5 ms,
forward-error-correction disabled, a jitter-buffer target latency within
10–30 ms (namely 30), and caps every decoupling buffer (`q_src`,
`q_net`, `q_sink`) at 20 ms (20 000 000 ns) with packet-count and byte
caps both set to zero (unlimited). -/
theorem default_tunables (env : Env) (devs : List Device) (dn : Option String)
    (host : String) (port listen : Nat)
    (hjit : env "JITTER_MS" = none) :
    ∃ s r,
      build_sender Platform.linux fullEngine env devs dn host port = Except.ok s ∧
      build_receiver Platform.linux fullEngine env listen = Except.ok r ∧
      s.opusenc.bitrate = 256000 ∧ s.opusenc.frameSize = some "2.5" ∧
      s.opusenc.inbandFec = false ∧
      (∃ l, r.jitter.latencyMs = some l ∧ 10 ≤ l ∧ l ≤ 30) ∧
      s.q_src = ⟨0, 0, 20000000⟩ ∧ r.q_net = ⟨0, 0, 20000000⟩ ∧
      r.q_sink = ⟨0, 0, 20000000⟩ := by
  refine ⟨senderCfg Platform.linux fullEngine env devs dn host port,
    receiverCfg Platform.linux fullEngine env listen,
    (build_sender_ok_iff Platform.linux fullEngine env devs dn host port _).mpr
      ⟨rfl, rfl, rfl⟩,
    (build_receiver_ok_iff Platform.linux fullEngine env listen _).mpr
      ⟨?_, rfl, rfl⟩, rfl, rfl, rfl, ⟨30, ?_, by omega, by omega⟩, rfl, rfl, rfl⟩
  · simp [receiverFactoriesOk, receiverFactories, fullEngine]
  · simp [receiverCfg, fullEngine, hjit]

theorem default_tunables_witness :
    ∃ s r,
      build_sender Platform.linux fullEngine emptyEnv [] none "127.0.0.1" 4000 =
        Except.ok s ∧
      build_receiver Platform.linux fullEngine emptyEnv 5004 = Except.ok r ∧
      s.opusenc.bitrate = 256000 ∧ s.opusenc.frameSize = some "2.5" ∧
      s.opusenc.inbandFec = false ∧
      (∃ l, r.jitter.latencyMs = some l ∧ 10 ≤ l ∧ l ≤ 30) ∧
      s.q_src = ⟨0, 0, 20000000⟩ ∧ r.q_net = ⟨0, 0, 20000000⟩ ∧
      r.q_sink = ⟨0, 0, 20000000⟩ :=
  default_tunables emptyEnv [] none "127.0.0.1" 4000 5004 rfl

/-- Claim C9: on macOS (the platform addressing capture devices by
integer index), given any device hint: when the hint does not parse as
an `i32`, `build_sender` still succeeds, sets no device property, and
returns no error (the hint is discarded with a warning); when it parses
as an integer, that index is applied as the device. -/
theorem mac_device_hint_parse (eng : Engine) (env : Env) (devs : List Device)
    (hint host : String) (port : Nat)
    (hfac : senderFactoriesOk Platform.macos eng = true)
    (hlink : eng.linkOk = true)
    (hprop : eng.hasProp "osxaudiosrc" "device" = true) :
    ∃ s, build_sender Platform.macos eng env devs (some hint) host port = Except.ok s ∧
      s.src.device = (parseI32 hint).map SrcDevice.index := by
  refine ⟨senderCfg Platform.macos eng env devs (some hint) host port,
    (build_sender_ok_iff Platform.macos eng env devs (some hint) host port _).mpr
      ⟨hfac, hlink, rfl⟩, ?_⟩
  show (macosSrcCfg eng env (some hint)).device = (parseI32 hint).map SrcDevice.index
  simp only [macosSrcCfg, hprop, if_true]
  cases parseI32 hint <;> rfl

theorem mac_device_hint_parse_witness :
    ∃ s, build_sender Platform.macos fullEngine emptyEnv [] (some "abc") "127.0.0.1" 4000 =
        Except.ok s ∧
      s.src.device = (parseI32 "abc").map SrcDevice.index :=
  mac_device_hint_parse fullEngine emptyEnv [] "abc" "127.0.0.1" 4000 rfl rfl rfl

/-- Claim C10: on any successfully built receiver (the jitter buffer
supporting the property), drop-on-late is set, and set to `true` exactly
when `DROP_ON_LATE` is unset or equal to the exact string "1"; any other
value (including "true") yields `false`. -/
theorem drop_on_late_exact_one (plat : Platform) (eng : Engine) (env : Env)
    (listen : Nat) (r : ReceiverCfg)
    (hprop : eng.hasProp "rtpjitterbuffer" "drop-on-late" = true)
    (hr : build_receiver plat eng env listen = Except.ok r) :
    r.jitter.dropOnLate =
      some (match env "DROP_ON_LATE" with
            | some v => v == "1"
            | none => true) ∧
    (r.jitter.dropOnLate = some true ↔
      env "DROP_ON_LATE" = none ∨ env "DROP_ON_LATE" = some "1") := by
  rw [build_receiver_ok_iff] at hr
  rw [hr.2.2]
  have hfield : (receiverCfg plat eng env listen).jitter.dropOnLate =
      some (match env "DROP_ON_LATE" with
            | some v => v == "1"
            | none => true) := by
    simp only [receiverCfg]
    rw [if_pos hprop]
  refine ⟨hfield, ?_⟩
  rw [hfield]
  cases he : env "DROP_ON_LATE" with
  | none => simp
  | some v => simp [beq_iff_eq]

/-- An environment setting `DROP_ON_LATE` to the string "true". -/
def dropLateEnv : Env := fun k => if k = "DROP_ON_LATE" then some "true" else none

theorem drop_on_late_exact_one_witness :
    (receiverCfg Platform.linux fullEngine dropLateEnv 5004).jitter.dropOnLate =
      some (match dropLateEnv "DROP_ON_LATE" with
            | some v => v == "1"
            | none => true) ∧
    ((receiverCfg Platform.linux fullEngine dropLateEnv 5004).jitter.dropOnLate =
        some true ↔
      dropLateEnv "DROP_ON_LATE" = none ∨ dropLateEnv "DROP_ON_LATE" = some "1") :=
  drop_on_late_exact_one Platform.linux fullEngine dropLateEnv 5004
    (receiverCfg Platform.linux fullEngine dropLateEnv 5004) rfl rfl

end AudioBridge
